import Mathlib

/-!
# discord_bot: the chat front end of the stable-diffusion bot

A shallow embedding of `src/discord_bot/discord_bot.go`.

The Go code talks to three collaborators: the Discord session (`discordgo`),
the imagine queue (`imagine_queue`) and the logger.  Every call to one of them
is recorded, in program order, in the list of calls of a `Run`; what a
collaborator answers is read from a `Collaborators` record, so that every
theorem quantifies over all possible answers.  A nil pointer dereference ends
the run with a fault, as a Go panic ends the goroutine.
-/

namespace DiscordBot

/-! ## Data model -/

/-- Go `error` value (non-nil); `%v` prints `Error`. -/
structure Err where
  Error : String
  deriving DecidableEq, Repr

/-- The part of `discordgo.User` the bot reads. -/
structure User where
  ID : String
  Username : String
  Discriminator : String
  deriving DecidableEq, Repr

/-- The part of `discordgo.Member` the bot reads; `User` is a pointer in Go. -/
structure Member where
  User : Option User
  deriving DecidableEq, Repr

/-- One option of an inbound slash command.  The `prompt` option is registered
with type `ApplicationCommandOptionString`, so the value carried is a string and
`StringValue` returns it. -/
structure ApplicationCommandInteractionDataOption where
  Name : String
  Value : String
  deriving DecidableEq, Repr

/-- Go: `option.StringValue()`. -/
def ApplicationCommandInteractionDataOption.StringValue
    (o : ApplicationCommandInteractionDataOption) : String :=
  o.Value

/-- The payload of an application-command interaction. -/
structure ApplicationCommandInteractionData where
  Name : String
  Options : List ApplicationCommandInteractionDataOption
  deriving DecidableEq, Repr

/-- An application-command interaction: `ID` identifies it and `Data` is its
command payload.  `Member` is Go's `*Member`: the guild member who invoked the
command, and nil (`none`) when the command is invoked outside a guild, in a
direct message to the bot. -/
structure Interaction where
  ID : String
  Data : ApplicationCommandInteractionData
  Member : Option Member
  deriving DecidableEq, Repr

/-- Go: `discordgo.InteractionCreate`, which embeds `*Interaction`. -/
structure InteractionCreate where
  Interaction : Interaction
  deriving DecidableEq, Repr

/-- Go: `i.ApplicationCommandData()`. -/
def InteractionCreate.ApplicationCommandData (i : InteractionCreate) :
    ApplicationCommandInteractionData :=
  i.Interaction.Data

/-- Go: `i.Member`, promoted from the embedded interaction. -/
def InteractionCreate.Member (i : InteractionCreate) : Option Member :=
  i.Interaction.Member

/-- The user reached by `i.Member.User` when neither pointer is nil. -/
def InteractionCreate.invokingUser (i : InteractionCreate) : Option User :=
  match i.Member with
  | some m => m.User
  | none => none

/-- Go: `discordgo.InteractionResponseData`. -/
structure InteractionResponseData where
  Content : String
  deriving DecidableEq, Repr

/-- Go: `discordgo.InteractionResponse`; `Type_` is the numeric response type (Go: `Type`). -/
structure InteractionResponse where
  Type_ : Nat
  Data : InteractionResponseData
  deriving DecidableEq, Repr

/-- Go: `discordgo.InteractionResponseChannelMessageWithSource`. -/
def InteractionResponseChannelMessageWithSource : Nat := 4

/-- Go: `discordgo.ApplicationCommandOptionString`. -/
def ApplicationCommandOptionString : Nat := 3

/-- Go: `discordgo.ApplicationCommandOption`; `Type_` is Go's `Type`. -/
structure ApplicationCommandOption where
  Type_ : Nat
  Name : String
  Description : String
  Required : Bool
  deriving DecidableEq, Repr

/-- Go: `discordgo.ApplicationCommand`. -/
structure ApplicationCommand where
  ID : String
  Name : String
  Description : String
  Options : List ApplicationCommandOption
  deriving DecidableEq, Repr

/-- Go: `discordgo.State`, reduced to the logged-in user. -/
structure State where
  User : User
  deriving DecidableEq, Repr

/-- Go: `*discordgo.Session`; `Token` is what `discordgo.New` was given. -/
structure Session where
  Token : String
  State : State
  deriving DecidableEq, Repr

/-- Go: a non-nil `stable_diffusion_api.StableDiffusionAPI` value. -/
structure StableDiffusionAPI where
  Host : String
  deriving DecidableEq, Repr

/-- Go: `imagine_queue.Config`. -/
structure QueueConfig where
  BotSession : Session
  StableDiffusionAPI : StableDiffusionAPI
  deriving DecidableEq, Repr

/-- Go: a non-nil `imagine_queue.Queue` value, identified by its configuration. -/
structure Queue where
  Config : QueueConfig
  deriving DecidableEq, Repr

/-- Go: `imagine_queue.QueueItem`. -/
structure QueueItem where
  Prompt : String
  DiscordInteraction : Interaction
  deriving DecidableEq, Repr

/-- Go: `botImpl`.  `registeredCommands` is a slice of pointers, so an entry
may be nil. -/
structure botImpl where
  botSession : Session
  guildID : String
  imagineQueue : Queue
  registeredCommands : List (Option ApplicationCommand)
  deriving DecidableEq, Repr

/-- Go: `Config`; a nil `StableDiffusionAPI` interface is `none`. -/
structure Config where
  BotToken : String
  GuildID : String
  StableDiffusionAPI : Option StableDiffusionAPI
  deriving DecidableEq, Repr

/-- The two closures `New` hands to `botSession.AddHandler`: the `Ready`
handler and the `InteractionCreate` handler, which captures `bot`. -/
inductive Handler where
  | ready
  | interactionCreate (bot : botImpl)
  deriving DecidableEq, Repr

/-! ## Calls to the collaborators -/

/-- One call made by the bot to a collaborator, with its arguments. -/
inductive Call where
  | logPrintf (line : String)
  | discordgoNew (token : String)
  | addHandler (h : Handler)
  | sessionOpen (s : Session)
  | sessionClose (s : Session)
  | imagineQueueNew (cfg : QueueConfig)
  | startPolling (q : Queue)
  | applicationCommandCreate (appID guildID : String) (cmd : ApplicationCommand)
  | applicationCommandDelete (appID guildID cmdID : String)
  | addImagine (item : QueueItem)
  | interactionRespond (interaction : Interaction) (resp : InteractionResponse)
  deriving DecidableEq, Repr

/-- What the collaborators answer.  A Go `(value, error)` pair whose value is
only read when the error is nil is an `Except`; `ApplicationCommandCreate`
keeps the pair, because its value is read on the error path as well. -/
structure Collaborators where
  discordgoNew : String → Except Err Session
  sessionOpen : Session → Option Err
  sessionClose : Session → Option Err
  imagineQueueNew : QueueConfig → Except Err Queue
  applicationCommandCreate :
    String → String → ApplicationCommand → Option ApplicationCommand × Option Err
  applicationCommandDelete : String → String → String → Option Err
  addImagine : QueueItem → Int × Option Err
  interactionRespond : Interaction → InteractionResponse → Option Err

/-- The run of a piece of Go code: the calls it made, in order, and either its
return value or the message of the fault that stopped it. -/
structure Run (α : Type) where
  calls : List Call
  outcome : Except String α

/-- Sequencing: a fault stops the run, keeping the calls made so far. -/
def Run.bind {α β : Type} (r : Run α) (f : α → Run β) : Run β :=
  match r.outcome with
  | .error e => ⟨r.calls, .error e⟩
  | .ok a => ⟨r.calls ++ (f a).calls, (f a).outcome⟩

instance : Monad Run where
  pure a := ⟨[], .ok a⟩
  bind := Run.bind

/-- Record a call and return the collaborator's answer. -/
def perform {α : Type} (c : Call) (answer : α) : Run α :=
  ⟨[c], .ok answer⟩

/-- Go runtime fault. -/
def fault {α : Type} (msg : String) : Run α :=
  ⟨[], .error msg⟩

/-- Dereference of a Go pointer. -/
def deref {α : Type} : Option α → Run α
  | some a => pure a
  | none => fault "runtime error: invalid memory address or nil pointer dereference"

/-- Go: `log.Printf`, with the line already formatted. -/
def logPrintf (line : String) : Run Unit :=
  perform (.logPrintf line) ()

/-- Go: the verb `%d` applied to an `int`. -/
def fmtD (n : Int) : String :=
  toString n

/-! ## processImagineCommand -/

/-- Go: `map[string]*ApplicationCommandInteractionDataOption`. -/
abbrev OptionMap := String → Option ApplicationCommandInteractionDataOption

/-- Go: `optionMap[opt.Name] = opt`. -/
def OptionMap.set (m : OptionMap) (opt : ApplicationCommandInteractionDataOption) :
    OptionMap :=
  fun k => if k = opt.Name then some opt else m k

/-- Go: the loop `for _, opt := range options { optionMap[opt.Name] = opt }`
over an empty map. -/
def buildOptionMap (options : List ApplicationCommandInteractionDataOption) : OptionMap :=
  options.foldl OptionMap.set (fun _ => none)

/-- Go: `b.imagineQueue.AddImagine(item)`. -/
def Queue.AddImagine (env : Collaborators) (_q : Queue) (item : QueueItem) :
    Run (Int × Option Err) :=
  perform (.addImagine item) (env.addImagine item)

/-- Go: `s.InteractionRespond(interaction, resp)`. -/
def Session.InteractionRespond (env : Collaborators) (_s : Session)
    (interaction : Interaction) (resp : InteractionResponse) : Run (Option Err) :=
  perform (.interactionRespond interaction resp) (env.interactionRespond interaction resp)

/-- Go: the `fmt.Sprintf` call of `processImagineCommand`. -/
def ackContent (position : Int) (userID prompt : String) : String :=
  "I'm dreaming something up for you. You are currently #" ++ fmtD position ++
    " in line.\n<@" ++ userID ++ "> asked me to imagine \"" ++ prompt ++ "\"."

/-- Go: `botImpl.processImagineCommand`.  The arguments of `fmt.Sprintf`,
`i.Member.User.ID` among them, are evaluated before `InteractionRespond` is
called, so a nil `Member` or `User` faults after `AddImagine` and before the
response. -/
def botImpl.processImagineCommand (env : Collaborators) (b : botImpl) (s : Session)
    (i : InteractionCreate) : Run Unit := do
  let options := i.ApplicationCommandData.Options
  let optionMap := buildOptionMap options
  let mut position : Int := 0
  let mut queueError : Option Err := none
  let mut prompt : String := ""
  if let some option := optionMap "prompt" then
    prompt := option.StringValue
    (position, queueError) ← b.imagineQueue.AddImagine env
      { Prompt := prompt, DiscordInteraction := i.Interaction }
    if let some e := queueError then
      logPrintf ("Error adding imagine to queue: " ++ e.Error ++ "\n")
  let member ← deref i.Member
  let user ← deref member.User
  let _ ← s.InteractionRespond env i.Interaction
    { Type_ := InteractionResponseChannelMessageWithSource
      Data := { Content := ackContent position user.ID prompt } }

/-! ## Command registration and teardown -/

/-- Go: `b.botSession.ApplicationCommandCreate(appID, guildID, cmd)`. -/
def Session.ApplicationCommandCreate (env : Collaborators) (_s : Session)
    (appID guildID : String) (cmd : ApplicationCommand) :
    Run (Option ApplicationCommand × Option Err) :=
  perform (.applicationCommandCreate appID guildID cmd)
    (env.applicationCommandCreate appID guildID cmd)

/-- Go: `b.botSession.ApplicationCommandDelete(appID, guildID, cmdID)`. -/
def Session.ApplicationCommandDelete (env : Collaborators) (_s : Session)
    (appID guildID cmdID : String) : Run (Option Err) :=
  perform (.applicationCommandDelete appID guildID cmdID)
    (env.applicationCommandDelete appID guildID cmdID)

/-- Go: `b.botSession.Close()`. -/
def Session.Close (env : Collaborators) (s : Session) : Run (Option Err) :=
  perform (.sessionClose s) (env.sessionClose s)

/-- Go: `botSession.Open()`. -/
def Session.Open (env : Collaborators) (s : Session) : Run (Option Err) :=
  perform (.sessionOpen s) (env.sessionOpen s)

/-- Go: `botSession.AddHandler(h)`. -/
def Session.AddHandler (_s : Session) (h : Handler) : Run Unit :=
  perform (.addHandler h) ()

/-- Go: `b.imagineQueue.StartPolling()`. -/
def Queue.StartPolling (q : Queue) : Run Unit :=
  perform (.startPolling q) ()

/-- The command description `addImagineCommand` sends to Discord. -/
def imagineCommand : ApplicationCommand where
  ID := ""
  Name := "imagine"
  Description := "Ask the bot to imagine something"
  Options :=
    [{ Type_ := ApplicationCommandOptionString
       Name := "prompt"
       Description := "The text prompt to imagine"
       Required := true }]

/-- Go: `botImpl.addImagineCommand`.  The receiver is a pointer: the bot after
the call is returned next to the error.  On the error path the arguments of
`log.Printf` are evaluated first, `cmd.Name` among them. -/
def botImpl.addImagineCommand (env : Collaborators) (b : botImpl) :
    Run (botImpl × Option Err) := do
  logPrintf "Adding command 'imagine'..."
  let (cmd, err) ← b.botSession.ApplicationCommandCreate env
    b.botSession.State.User.ID b.guildID imagineCommand
  if let some e := err then
    let c ← deref cmd
    logPrintf ("Error creating '" ++ c.Name ++ "' command: " ++ e.Error)
    return (b, some e)
  return ({ b with registeredCommands := b.registeredCommands ++ [cmd] }, none)

/-- Go: the body of the `for` loop of `teardown`, for one registered command. -/
def botImpl.removeCommand (env : Collaborators) (b : botImpl)
    (v : Option ApplicationCommand) : Run Unit := do
  let c ← deref v
  logPrintf ("Removing command '" ++ c.Name ++ "'...")
  let err ← b.botSession.ApplicationCommandDelete env
    b.botSession.State.User.ID b.guildID c.ID
  if let some e := err then
    logPrintf ("Error deleting '" ++ c.Name ++ "' command: " ++ e.Error)

/-- Go: `for _, v := range b.registeredCommands { ... }`. -/
def botImpl.removeCommands (env : Collaborators) (b : botImpl) :
    List (Option ApplicationCommand) → Run Unit
  | [] => pure ()
  | v :: vs => do
    b.removeCommand env v
    b.removeCommands env vs

/-- Go: `botImpl.teardown`. -/
def botImpl.teardown (env : Collaborators) (b : botImpl) : Run (Option Err) := do
  b.removeCommands env b.registeredCommands
  b.botSession.Close env

/-- Go: `botImpl.Start`. -/
def botImpl.Start (env : Collaborators) (b : botImpl) : Run Unit := do
  b.imagineQueue.StartPolling
  let err ← b.teardown env
  if let some e := err then
    logPrintf ("Error tearing down bot: " ++ e.Error)

/-! ## New and the interaction handler -/

/-- Go: the closure `func(s *discordgo.Session, i *discordgo.InteractionCreate)`
that `New` installs, with the captured `bot`. -/
def interactionCreateHandler (env : Collaborators) (bot : botImpl) (s : Session)
    (i : InteractionCreate) : Run Unit :=
  if i.ApplicationCommandData.Name = "imagine" then
    bot.processImagineCommand env s i
  else
    logPrintf ("Unknown command '" ++ i.ApplicationCommandData.Name ++ "'")

/-- What an installed handler does on an inbound `InteractionCreate` event; the
`Ready` handler is not fired by it. -/
def Handler.onInteractionCreate (env : Collaborators) :
    Handler → Session → InteractionCreate → Run Unit
  | .ready, _, _ => pure ()
  | .interactionCreate bot, s, i => interactionCreateHandler env bot s i

/-- Go: `discordgo.New(token)`. -/
def discordgoNew (env : Collaborators) (token : String) : Run (Except Err Session) :=
  perform (.discordgoNew token) (env.discordgoNew token)

/-- Go: `imagine_queue.New(cfg)`. -/
def imagineQueueNew (env : Collaborators) (cfg : QueueConfig) : Run (Except Err Queue) :=
  perform (.imagineQueueNew cfg) (env.imagineQueueNew cfg)

/-- Go: `New`.  The result is Go's pair `(Bot, error)`, `none` standing for
nil.  The composite literal of `botImpl` names `botSession`, `imagineQueue` and
`registeredCommands`; `guildID` keeps the zero value of a string. -/
def New (env : Collaborators) (cfg : Config) : Run (Option botImpl × Option Err) := do
  if cfg.BotToken = "" then
    return (none, some ⟨"missing bot token"⟩)
  if cfg.GuildID = "" then
    return (none, some ⟨"missing guild ID"⟩)
  match cfg.StableDiffusionAPI with
  | none => return (none, some ⟨"missing stable diffusion API"⟩)
  | some api =>
    match ← discordgoNew env ("Bot " ++ cfg.BotToken) with
    | .error err => return (none, some err)
    | .ok botSession =>
      botSession.AddHandler .ready
      if let some err ← botSession.Open env then
        return (none, some err)
      match ← imagineQueueNew env { BotSession := botSession, StableDiffusionAPI := api } with
      | .error err => return (none, some err)
      | .ok imagineQueue =>
        let bot : botImpl :=
          { botSession := botSession
            guildID := ""
            imagineQueue := imagineQueue
            registeredCommands := [] }
        let (bot, err) ← bot.addImagineCommand env
        if let some err := err then
          return (none, some err)
        botSession.AddHandler (.interactionCreate bot)
        return (some bot, none)

/-! ## Reading a list of calls -/

/-- The queue item of an `AddImagine` call. -/
def Call.addImagineItem? : Call → Option QueueItem
  | .addImagine item => some item
  | _ => none

/-- The interaction and the response of an `InteractionRespond` call. -/
def Call.respond? : Call → Option (Interaction × InteractionResponse)
  | .interactionRespond interaction resp => some (interaction, resp)
  | _ => none

/-- The line of a `log.Printf` call. -/
def Call.logLine? : Call → Option String
  | .logPrintf line => some line
  | _ => none

/-- The handler of an `AddHandler` call. -/
def Call.handler? : Call → Option Handler
  | .addHandler h => some h
  | _ => none

/-- The guild ID of an `ApplicationCommandCreate` call. -/
def Call.createGuildID? : Call → Option String
  | .applicationCommandCreate _ guildID _ => some guildID
  | _ => none

/-- The guild ID of an `ApplicationCommandDelete` call. -/
def Call.deleteGuildID? : Call → Option String
  | .applicationCommandDelete _ guildID _ => some guildID
  | _ => none

/-- The last option of the list that carries the given name: the one the
option map holds after the loop. -/
def lastNamed (name : String) (options : List ApplicationCommandInteractionDataOption) :
    Option ApplicationCommandInteractionDataOption :=
  options.reverse.find? (fun o => decide (o.Name = name))

/-! ## Concrete inputs -/

/-- The logged-in bot user. -/
def botUser : User := ⟨"app", "bot", "0001"⟩

/-- A session as `discordgo.New` returns it for the token `tok`. -/
def session0 : Session := ⟨"Bot tok", ⟨botUser⟩⟩

/-- A queue built on `session0`. -/
def queue0 : Queue := ⟨⟨session0, ⟨"http://sd"⟩⟩⟩

/-- A bot as `New` builds it. -/
def bot0 : botImpl := ⟨session0, "", queue0, []⟩

/-- A configuration that `New` accepts. -/
def cfg0 : Config := ⟨"tok", "guild", some ⟨"http://sd"⟩⟩

/-- The command `/imagine prompt:"a cat"` invoked by member `u1`. -/
def imagineCat : InteractionCreate :=
  ⟨⟨"i1", ⟨"imagine", [⟨"prompt", "a cat"⟩]⟩, some ⟨some ⟨"u1", "joe", "1"⟩⟩⟩⟩

/-- The command `/imagine prompt:"a cat"` invoked in a direct message to the
bot: the interaction carries no member. -/
def imagineCatDirect : InteractionCreate :=
  ⟨⟨"i3", ⟨"imagine", [⟨"prompt", "a cat"⟩]⟩, none⟩⟩

/-- The command `/help`. -/
def helpCommand : InteractionCreate :=
  ⟨⟨"i2", ⟨"help", []⟩, some ⟨some ⟨"u1", "joe", "1"⟩⟩⟩⟩

/-- The item `processImagineCommand` submits for `imagineCat`. -/
def catItem : QueueItem := ⟨"a cat", imagineCat.Interaction⟩

/-- The item `processImagineCommand` submits for `imagineCatDirect`. -/
def directItem : QueueItem := ⟨"a cat", imagineCatDirect.Interaction⟩

/-- The command as Discord returns it once created. -/
def createdCommand : ApplicationCommand :=
  { imagineCommand with ID := "cmd1" }

/-- The bot `New` returns for `cfg0` when every collaborator succeeds. -/
def bot1 : botImpl := ⟨session0, "", queue0, [some createdCommand]⟩

/-- Collaborators that all succeed; the queue answers position 1. -/
def envOk : Collaborators where
  discordgoNew t := .ok ⟨t, ⟨botUser⟩⟩
  sessionOpen _ := none
  sessionClose _ := none
  imagineQueueNew c := .ok ⟨c⟩
  applicationCommandCreate _ _ _ := (some createdCommand, none)
  applicationCommandDelete _ _ _ := none
  addImagine _ := (1, none)
  interactionRespond _ _ := none

/-- As `envOk`, but the queue is shut down and rejects the submission. -/
def envQueueDown : Collaborators :=
  { envOk with addImagine := fun _ => (0, some ⟨"queue unavailable"⟩) }

/-- As `envOk`, but the delivery of the response fails. -/
def envRespondFails : Collaborators :=
  { envOk with interactionRespond := fun _ _ => some ⟨"HTTP 500"⟩ }

/-- As `envOk`, but Discord refuses to create the command: no command, an error. -/
def envCreateFails : Collaborators :=
  { envOk with applicationCommandCreate := fun _ _ _ => (none, some ⟨"HTTP 403"⟩) }

/-! ## Lemmas on the option map -/

theorem foldl_set_apply (k : String)
    (options : List ApplicationCommandInteractionDataOption) (m : OptionMap) :
    options.foldl OptionMap.set m k =
      (match options.reverse.find? (fun o => decide (o.Name = k)) with
       | some o => some o
       | none => m k) := by
  induction options generalizing m with
  | nil => simp
  | cons o os ih =>
    rw [List.foldl_cons, ih, List.reverse_cons, List.find?_append]
    cases h : os.reverse.find? (fun o => decide (o.Name = k)) with
    | some o2 => simp
    | none =>
      by_cases hk : o.Name = k
      · simp [OptionMap.set, hk]
      · have hk2 : ¬ k = o.Name := fun h => hk h.symm
        simp [OptionMap.set, hk, hk2]

theorem buildOptionMap_eq_lastNamed (k : String)
    (options : List ApplicationCommandInteractionDataOption) :
    buildOptionMap options k = lastNamed k options := by
  unfold buildOptionMap lastNamed
  rw [foldl_set_apply]
  cases options.reverse.find? (fun o => decide (o.Name = k)) <;> rfl

theorem lastNamed_some_mem {k : String}
    {options : List ApplicationCommandInteractionDataOption}
    {opt : ApplicationCommandInteractionDataOption}
    (h : lastNamed k options = some opt) : opt ∈ options ∧ opt.Name = k := by
  unfold lastNamed at h
  have h1 := List.mem_of_find?_eq_some h
  have h2 := List.find?_some h
  exact ⟨by simpa using h1, by simpa using h2⟩

theorem lastNamed_none_iff {k : String}
    {options : List ApplicationCommandInteractionDataOption} :
    lastNamed k options = none ↔ ∀ o ∈ options, o.Name ≠ k := by
  unfold lastNamed
  simp [List.find?_eq_none]

/-! ## What processImagineCommand does, path by path -/

theorem invokingUser_eq_some {i : InteractionCreate} {m : Member} {u : User}
    (hm : i.Member = some m) (hu : m.User = some u) : i.invokingUser = some u := by
  simp [InteractionCreate.invokingUser, hm, hu]

theorem invokingUser_some_iff {i : InteractionCreate} {u : User} :
    i.invokingUser = some u ↔ ∃ m, i.Member = some m ∧ m.User = some u := by
  unfold InteractionCreate.invokingUser
  cases i.Member with
  | none => simp
  | some m => simp

theorem processImagineCommand_with_prompt (env : Collaborators) (b : botImpl)
    (s : Session) (i : InteractionCreate)
    (opt : ApplicationCommandInteractionDataOption)
    (hopt : lastNamed "prompt" i.ApplicationCommandData.Options = some opt) :
    b.processImagineCommand env s i =
      (match i.invokingUser with
       | some u =>
         ⟨[.addImagine ⟨opt.StringValue, i.Interaction⟩] ++
            (match (env.addImagine ⟨opt.StringValue, i.Interaction⟩).2 with
             | some e => [.logPrintf ("Error adding imagine to queue: " ++ e.Error ++ "\n")]
             | none => []) ++
            [.interactionRespond i.Interaction
              ⟨InteractionResponseChannelMessageWithSource,
               ⟨ackContent (env.addImagine ⟨opt.StringValue, i.Interaction⟩).1
                  u.ID opt.StringValue⟩⟩],
          .ok ()⟩
       | none =>
         ⟨[.addImagine ⟨opt.StringValue, i.Interaction⟩] ++
            (match (env.addImagine ⟨opt.StringValue, i.Interaction⟩).2 with
             | some e => [.logPrintf ("Error adding imagine to queue: " ++ e.Error ++ "\n")]
             | none => []),
          .error "runtime error: invalid memory address or nil pointer dereference"⟩) := by
  rw [← buildOptionMap_eq_lastNamed] at hopt
  rcases hres : env.addImagine ⟨opt.StringValue, i.Interaction⟩ with ⟨p, _ | e⟩ <;>
    rcases hM : i.Interaction.Member with _ | ⟨_ | u⟩ <;>
      simp [botImpl.processImagineCommand, InteractionCreate.invokingUser,
        InteractionCreate.Member, hM, hopt, Queue.AddImagine,
        Session.InteractionRespond, perform, bind, Run.bind, hres, pure, logPrintf,
        deref, fault]

theorem processImagineCommand_without_prompt (env : Collaborators) (b : botImpl)
    (s : Session) (i : InteractionCreate)
    (hopt : lastNamed "prompt" i.ApplicationCommandData.Options = none) :
    b.processImagineCommand env s i =
      (match i.invokingUser with
       | some u =>
         ⟨[.interactionRespond i.Interaction
            ⟨InteractionResponseChannelMessageWithSource, ⟨ackContent 0 u.ID ""⟩⟩],
          .ok ()⟩
       | none =>
         ⟨[], .error "runtime error: invalid memory address or nil pointer dereference"⟩) := by
  rw [← buildOptionMap_eq_lastNamed] at hopt
  rcases hM : i.Interaction.Member with _ | ⟨_ | u⟩ <;>
    simp [botImpl.processImagineCommand, InteractionCreate.invokingUser,
      InteractionCreate.Member, hM, hopt, Session.InteractionRespond, perform,
      bind, Run.bind, pure, deref, fault]

theorem respond_once_with_member (env : Collaborators) (b : botImpl) (s : Session)
    (i : InteractionCreate) (opt : ApplicationCommandInteractionDataOption)
    (m : Member) (u : User)
    (hopt : lastNamed "prompt" i.ApplicationCommandData.Options = some opt)
    (hm : i.Member = some m) (hu : m.User = some u) :
    ((b.processImagineCommand env s i).calls.filterMap Call.respond?).map Prod.fst =
        [i.Interaction] ∧
      (b.processImagineCommand env s i).outcome = .ok () := by
  rw [processImagineCommand_with_prompt env b s i opt hopt, invokingUser_eq_some hm hu]
  cases (env.addImagine ⟨opt.StringValue, i.Interaction⟩).2 <;> simp [Call.respond?]

/-! ## The claims on processImagineCommand -/

/-- C1: a rejected submission is not followed by a failure notice.  With the
queue shut down (`AddImagine` returns position 0 and an error) the command
`/imagine prompt:"a cat"` makes `processImagineCommand` log the error and then
send the acceptance message "You are currently #0 in line" all the same. -/
theorem rejected_submission_still_acknowledged :
    envQueueDown.addImagine catItem = (0, some ⟨"queue unavailable"⟩) ∧
    bot0.processImagineCommand envQueueDown session0 imagineCat =
      ⟨[.addImagine catItem,
        .logPrintf "Error adding imagine to queue: queue unavailable\n",
        .interactionRespond imagineCat.Interaction
          ⟨4, ⟨"I'm dreaming something up for you. You are currently #0 in line.\n<@u1> asked me to imagine \"a cat\"."⟩⟩],
       .ok ()⟩ := by
  constructor
  · rfl
  · rfl

/-- C2: when the command carries a `prompt` option and `AddImagine` succeeds
with position `p`, every response passed to `InteractionRespond` has exactly
the content "I'm dreaming something up for you. You are currently #p in line."
followed by a line break and "<@user> asked me to imagine "prompt"." with the
position returned by `AddImagine`, the ID of the invoking member's user and the
prompt unchanged; and when the interaction carries the invoking member, that
response is passed, once. -/
theorem ack_content_exact (env : Collaborators) (b : botImpl) (s : Session)
    (i : InteractionCreate) (opt : ApplicationCommandInteractionDataOption) (p : Int)
    (hopt : lastNamed "prompt" i.ApplicationCommandData.Options = some opt)
    (hadd : env.addImagine ⟨opt.StringValue, i.Interaction⟩ = (p, none)) :
    (∀ interaction resp,
      Call.interactionRespond interaction resp ∈ (b.processImagineCommand env s i).calls →
        ∃ m u, i.Member = some m ∧ m.User = some u ∧ interaction = i.Interaction ∧
          resp =
            ⟨InteractionResponseChannelMessageWithSource,
             ⟨"I'm dreaming something up for you. You are currently #" ++ toString p ++
                " in line.\n<@" ++ u.ID ++ "> asked me to imagine \"" ++
                opt.StringValue ++ "\"."⟩⟩) ∧
    (∀ m u, i.Member = some m → m.User = some u →
      (b.processImagineCommand env s i).calls.filterMap Call.respond? =
        [(i.Interaction,
          ⟨InteractionResponseChannelMessageWithSource,
           ⟨"I'm dreaming something up for you. You are currently #" ++ toString p ++
              " in line.\n<@" ++ u.ID ++ "> asked me to imagine \"" ++
              opt.StringValue ++ "\"."⟩⟩)]) := by
  rw [processImagineCommand_with_prompt env b s i opt hopt, hadd]
  constructor
  · intro interaction resp hmem
    cases hu : i.invokingUser with
    | none => simp [hu] at hmem
    | some u =>
      obtain ⟨m, hm, hmu⟩ := invokingUser_some_iff.mp hu
      simp [hu] at hmem
      exact ⟨m, u, hm, hmu, hmem.1, by rw [hmem.2]; simp [ackContent, fmtD]⟩
  · intro m u hm hu
    rw [invokingUser_eq_some hm hu]
    simp [Call.respond?, ackContent, fmtD]

theorem ack_content_exact_witness :
    (bot0.processImagineCommand envOk session0 imagineCat).calls.filterMap Call.respond? =
      [(imagineCat.Interaction,
        ⟨4, ⟨"I'm dreaming something up for you. You are currently #1 in line.\n<@u1> asked me to imagine \"a cat\"."⟩⟩)] :=
  (ack_content_exact envOk bot0 session0 imagineCat ⟨"prompt", "a cat"⟩ 1 (by decide)
    (by rfl)).2 ⟨some ⟨"u1", "joe", "1"⟩⟩ ⟨"u1", "joe", "1"⟩ rfl rfl

/-- C3: an accepted submission can be left without its Ack.  The command
`/imagine prompt:"a cat"` invoked in a direct message carries no member; the
queue accepts the item at position 1, `processImagineCommand` has called
`AddImagine` with it, and whatever the collaborators answer it never calls
`InteractionRespond`: it faults on `i.Member.User.ID` first. -/
theorem accepted_direct_message_never_acknowledged :
    envOk.addImagine directItem = (1, none) ∧
    (bot0.processImagineCommand envOk session0 imagineCatDirect).calls.filterMap
      Call.addImagineItem? = [directItem] ∧
    (∀ env : Collaborators,
      (bot0.processImagineCommand env session0 imagineCatDirect).calls.filterMap
          Call.respond? = [] ∧
        (bot0.processImagineCommand env session0 imagineCatDirect).outcome =
          .error "runtime error: invalid memory address or nil pointer dereference") := by
  refine ⟨rfl, rfl, ?_⟩
  intro env
  rw [processImagineCommand_with_prompt env bot0 session0 imagineCatDirect
    ⟨"prompt", "a cat"⟩ (by decide)]
  have hu : imagineCatDirect.invokingUser = none := rfl
  rw [hu]
  cases (env.addImagine
    ⟨(⟨"prompt", "a cat"⟩ : ApplicationCommandInteractionDataOption).StringValue,
      imagineCatDirect.Interaction⟩).2 <;> simp [Call.respond?]

/-- C4: a failed delivery of the response is not logged.  With
`InteractionRespond` returning an error for `/imagine prompt:"a cat"`,
`processImagineCommand` makes the two calls `AddImagine` and
`InteractionRespond` and writes no log entry. -/
theorem ack_failure_not_logged :
    (∀ interaction resp,
        envRespondFails.interactionRespond interaction resp = some ⟨"HTTP 500"⟩) ∧
    bot0.processImagineCommand envRespondFails session0 imagineCat =
      ⟨[.addImagine catItem,
        .interactionRespond imagineCat.Interaction
          ⟨4, ⟨"I'm dreaming something up for you. You are currently #1 in line.\n<@u1> asked me to imagine \"a cat\"."⟩⟩],
       .ok ()⟩ ∧
    (bot0.processImagineCommand envRespondFails session0 imagineCat).calls.filterMap
      Call.logLine? = [] := by
  refine ⟨fun _ _ => rfl, rfl, rfl⟩

/-- C6: `processImagineCommand` calls nothing but `AddImagine`, `log.Printf`
and `InteractionRespond`; when an option is named `prompt` it calls
`AddImagine` exactly once, with the string value of such an option (the last
one of that name) as `Prompt` and the inbound interaction as
`DiscordInteraction`; when no option is named `prompt` it never calls
`AddImagine`. -/
theorem addImagine_at_most_once (env : Collaborators) (b : botImpl) (s : Session)
    (i : InteractionCreate) :
    (∀ c ∈ (b.processImagineCommand env s i).calls,
        (∃ item, c = .addImagine item) ∨ (∃ line, c = .logPrintf line) ∨
          (∃ interaction resp, c = .interactionRespond interaction resp)) ∧
    ((∃ o ∈ i.ApplicationCommandData.Options, o.Name = "prompt") →
      ∃ opt ∈ i.ApplicationCommandData.Options, opt.Name = "prompt" ∧
        lastNamed "prompt" i.ApplicationCommandData.Options = some opt ∧
        (b.processImagineCommand env s i).calls.filterMap Call.addImagineItem? =
          [{ Prompt := opt.StringValue, DiscordInteraction := i.Interaction }]) ∧
    ((∀ o ∈ i.ApplicationCommandData.Options, o.Name ≠ "prompt") →
      (b.processImagineCommand env s i).calls.filterMap Call.addImagineItem? = []) := by
  cases hl : lastNamed "prompt" i.ApplicationCommandData.Options with
  | none =>
    have hno := lastNamed_none_iff.mp hl
    rw [processImagineCommand_without_prompt env b s i hl]
    refine ⟨?_, ?_, ?_⟩
    · intro c hc
      cases hu : i.invokingUser with
      | none => simp [hu] at hc
      | some u =>
        simp [hu] at hc
        exact Or.inr (Or.inr ⟨_, _, hc⟩)
    · rintro ⟨o, ho, hn⟩
      exact absurd hn (hno o ho)
    · intro _
      cases hu : i.invokingUser <;> simp [Call.addImagineItem?]
  | some opt =>
    obtain ⟨hmem, hname⟩ := lastNamed_some_mem hl
    rw [processImagineCommand_with_prompt env b s i opt hl]
    refine ⟨?_, ?_, ?_⟩
    · intro c hc
      cases hu : i.invokingUser with
      | none =>
        cases h2 : (env.addImagine ⟨opt.StringValue, i.Interaction⟩).2 with
        | none =>
          simp [hu, h2] at hc
          exact Or.inl ⟨_, hc⟩
        | some e =>
          simp [hu, h2] at hc
          rcases hc with hc | hc
          · exact Or.inl ⟨_, hc⟩
          · exact Or.inr (Or.inl ⟨_, hc⟩)
      | some u =>
        cases h2 : (env.addImagine ⟨opt.StringValue, i.Interaction⟩).2 with
        | none =>
          simp [hu, h2] at hc
          rcases hc with hc | hc
          · exact Or.inl ⟨_, hc⟩
          · exact Or.inr (Or.inr ⟨_, _, hc⟩)
        | some e =>
          simp [hu, h2] at hc
          rcases hc with hc | hc | hc
          · exact Or.inl ⟨_, hc⟩
          · exact Or.inr (Or.inl ⟨_, hc⟩)
          · exact Or.inr (Or.inr ⟨_, _, hc⟩)
    · intro _
      refine ⟨opt, hmem, hname, rfl, ?_⟩
      cases hu : i.invokingUser <;>
        cases h2 : (env.addImagine ⟨opt.StringValue, i.Interaction⟩).2 <;>
          simp [Call.addImagineItem?]
    · intro hno
      exact absurd hname (hno opt hmem)

theorem addImagine_at_most_once_witness :
    (∃ opt ∈ imagineCat.ApplicationCommandData.Options, opt.Name = "prompt" ∧
        lastNamed "prompt" imagineCat.ApplicationCommandData.Options = some opt ∧
        (bot0.processImagineCommand envOk session0 imagineCat).calls.filterMap
          Call.addImagineItem? =
          [{ Prompt := opt.StringValue, DiscordInteraction := imagineCat.Interaction }]) ∧
    (bot0.processImagineCommand envOk session0 helpCommand).calls.filterMap
      Call.addImagineItem? = [] :=
  ⟨(addImagine_at_most_once envOk bot0 session0 imagineCat).2.1
      ⟨⟨"prompt", "a cat"⟩, by decide, by decide⟩,
    (addImagine_at_most_once envOk bot0 session0 helpCommand).2.2 (by decide)⟩

/-- C7: the Ack is not always sent after `AddImagine` has returned.  For the
command `/imagine prompt:"a cat"` invoked in a direct message and accepted by
the queue, the run of `processImagineCommand` consists of the `AddImagine` call
alone and ends in a fault: the item is in the queue and no Ack follows. -/
theorem direct_message_submitted_without_ack :
    bot0.processImagineCommand envOk session0 imagineCatDirect =
      ⟨[.addImagine directItem],
       .error "runtime error: invalid memory address or nil pointer dereference"⟩ := by
  rfl

/-! ## What New and addImagineCommand do, path by path -/

theorem addImagineCommand_created (env : Collaborators) (b : botImpl)
    (cmd : Option ApplicationCommand)
    (h : env.applicationCommandCreate b.botSession.State.User.ID b.guildID imagineCommand =
      (cmd, none)) :
    b.addImagineCommand env =
      ⟨[.logPrintf "Adding command 'imagine'...",
        .applicationCommandCreate b.botSession.State.User.ID b.guildID imagineCommand],
       .ok ({ b with registeredCommands := b.registeredCommands ++ [cmd] }, none)⟩ := by
  simp [botImpl.addImagineCommand, Session.ApplicationCommandCreate, logPrintf, perform,
    bind, Run.bind, pure, h]

theorem addImagineCommand_refused_nil (env : Collaborators) (b : botImpl) (e : Err)
    (h : env.applicationCommandCreate b.botSession.State.User.ID b.guildID imagineCommand =
      (none, some e)) :
    b.addImagineCommand env =
      ⟨[.logPrintf "Adding command 'imagine'...",
        .applicationCommandCreate b.botSession.State.User.ID b.guildID imagineCommand],
       .error "runtime error: invalid memory address or nil pointer dereference"⟩ := by
  simp [botImpl.addImagineCommand, Session.ApplicationCommandCreate, logPrintf, perform,
    bind, Run.bind, pure, h, deref, fault]

theorem addImagineCommand_refused_cmd (env : Collaborators) (b : botImpl) (e : Err)
    (c : ApplicationCommand)
    (h : env.applicationCommandCreate b.botSession.State.User.ID b.guildID imagineCommand =
      (some c, some e)) :
    b.addImagineCommand env =
      ⟨[.logPrintf "Adding command 'imagine'...",
        .applicationCommandCreate b.botSession.State.User.ID b.guildID imagineCommand,
        .logPrintf ("Error creating '" ++ c.Name ++ "' command: " ++ e.Error)],
       .ok (b, some e)⟩ := by
  simp [botImpl.addImagineCommand, Session.ApplicationCommandCreate, logPrintf, perform,
    bind, Run.bind, pure, h, deref, fault]

theorem New_after_queue (env : Collaborators) (cfg : Config) (api : StableDiffusionAPI)
    (ses : Session) (q : Queue)
    (h1 : cfg.BotToken ≠ "") (h2 : cfg.GuildID ≠ "")
    (h3 : cfg.StableDiffusionAPI = some api)
    (h4 : env.discordgoNew ("Bot " ++ cfg.BotToken) = .ok ses)
    (h5 : env.sessionOpen ses = none)
    (h6 : env.imagineQueueNew ⟨ses, api⟩ = .ok q) :
    New env cfg =
      Run.bind
        ⟨[.discordgoNew ("Bot " ++ cfg.BotToken), .addHandler .ready,
          .sessionOpen ses, .imagineQueueNew ⟨ses, api⟩], .ok ()⟩
        (fun _ => Run.bind (botImpl.addImagineCommand env ⟨ses, "", q, []⟩)
          (fun r => match r.2 with
            | some err => ⟨[], .ok (none, some err)⟩
            | none => ⟨[.addHandler (.interactionCreate r.1)], .ok (some r.1, none)⟩)) := by
  simp only [New, h1, h2, h3, h4, h5, h6, pure, bind, Run.bind, discordgoNew, perform,
    Session.AddHandler, Session.Open, imagineQueueNew, if_false, List.append_nil,
    List.singleton_append, List.cons_append, List.nil_append]
  generalize botImpl.addImagineCommand env ⟨ses, "", q, []⟩ = r
  rcases r with ⟨cs, _ | ⟨b2, _ | e⟩⟩ <;> rfl

theorem New_outcome (env : Collaborators) (cfg : Config) :
    (∃ e, (New env cfg).outcome = .ok (none, some e)) ∨
    (∃ m, (New env cfg).outcome = .error m) ∨
    (∃ api ses q cmd, cfg.BotToken ≠ "" ∧ cfg.GuildID ≠ "" ∧
      cfg.StableDiffusionAPI = some api ∧
      env.discordgoNew ("Bot " ++ cfg.BotToken) = .ok ses ∧
      env.sessionOpen ses = none ∧
      env.imagineQueueNew ⟨ses, api⟩ = .ok q ∧
      env.applicationCommandCreate ses.State.User.ID "" imagineCommand = (cmd, none) ∧
      New env cfg =
        ⟨[.discordgoNew ("Bot " ++ cfg.BotToken), .addHandler .ready, .sessionOpen ses,
          .imagineQueueNew ⟨ses, api⟩, .logPrintf "Adding command 'imagine'...",
          .applicationCommandCreate ses.State.User.ID "" imagineCommand,
          .addHandler (.interactionCreate ⟨ses, "", q, [cmd]⟩)],
         .ok (some ⟨ses, "", q, [cmd]⟩, none)⟩) := by
  by_cases h1 : cfg.BotToken = ""
  · left; exact ⟨⟨"missing bot token"⟩, by simp [New, h1, pure, bind, Run.bind]⟩
  by_cases h2 : cfg.GuildID = ""
  · left; exact ⟨⟨"missing guild ID"⟩, by simp [New, h1, h2, pure, bind, Run.bind]⟩
  cases h3 : cfg.StableDiffusionAPI with
  | none =>
    left
    exact ⟨⟨"missing stable diffusion API"⟩, by simp [New, h1, h2, h3, pure, bind, Run.bind]⟩
  | some api =>
    cases h4 : env.discordgoNew ("Bot " ++ cfg.BotToken) with
    | error err =>
      left
      exact ⟨err, by simp [New, h1, h2, h3, h4, pure, bind, Run.bind, discordgoNew, perform]⟩
    | ok ses =>
      cases h5 : env.sessionOpen ses with
      | some err =>
        left
        exact ⟨err, by
          simp [New, h1, h2, h3, h4, h5, pure, bind, Run.bind, discordgoNew, perform,
            Session.AddHandler, Session.Open]⟩
      | none =>
        cases h6 : env.imagineQueueNew ⟨ses, api⟩ with
        | error err =>
          left
          exact ⟨err, by
            simp [New, h1, h2, h3, h4, h5, h6, pure, bind, Run.bind, discordgoNew, perform,
              Session.AddHandler, Session.Open, imagineQueueNew]⟩
        | ok q =>
          have hnew := New_after_queue env cfg api ses q h1 h2 h3 h4 h5 h6
          rcases h7 : env.applicationCommandCreate ses.State.User.ID "" imagineCommand
            with ⟨cmd, _ | e⟩
          · right; right
            refine ⟨api, ses, q, cmd, h1, h2, rfl, rfl, h5, h6, h7, ?_⟩
            rw [hnew, addImagineCommand_created env ⟨ses, "", q, []⟩ cmd h7]
            rfl
          · cases cmd with
            | none =>
              right; left
              refine ⟨"runtime error: invalid memory address or nil pointer dereference", ?_⟩
              rw [hnew, addImagineCommand_refused_nil env ⟨ses, "", q, []⟩ e h7]
              rfl
            | some c =>
              left
              refine ⟨e, ?_⟩
              rw [hnew, addImagineCommand_refused_cmd env ⟨ses, "", q, []⟩ e c h7]
              rfl

theorem New_guildID_unset (env : Collaborators) (cfg : Config) (bot : botImpl)
    (hnew : (New env cfg).outcome = .ok (some bot, none)) :
    cfg.GuildID ≠ "" ∧ bot.guildID = "" ∧
      (New env cfg).calls.filterMap Call.createGuildID? = [""] := by
  rcases New_outcome env cfg with ⟨e, h⟩ | ⟨m, h⟩ | ⟨api, ses, q, cmd, _, h2, _, _, _, _, _, h⟩
  · rw [h] at hnew; cases hnew
  · rw [h] at hnew; cases hnew
  · rw [h] at hnew ⊢
    cases hnew
    exact ⟨h2, rfl, rfl⟩

/-! ## The claims on New, registration and dispatch -/

/-- C5: the interaction handler that `New` installs (next to the `Ready`
handler) dispatches on the command name: for `imagine` it runs
`processImagineCommand` of the returned bot; for any other name it writes the
one log entry "Unknown command 'name'" and makes no other call, so neither
`AddImagine` nor `InteractionRespond`. -/
theorem handler_dispatches_on_name (env : Collaborators) (cfg : Config) (bot : botImpl)
    (hnew : (New env cfg).outcome = .ok (some bot, none)) :
    (New env cfg).calls.filterMap Call.handler? = [.ready, .interactionCreate bot] ∧
    ∀ (s : Session) (i : InteractionCreate),
      (i.ApplicationCommandData.Name = "imagine" →
        Handler.onInteractionCreate env (.interactionCreate bot) s i =
          bot.processImagineCommand env s i) ∧
      (i.ApplicationCommandData.Name ≠ "imagine" →
        Handler.onInteractionCreate env (.interactionCreate bot) s i =
          ⟨[.logPrintf ("Unknown command '" ++ i.ApplicationCommandData.Name ++ "'")],
           .ok ()⟩) := by
  constructor
  · rcases New_outcome env cfg with ⟨e, h⟩ | ⟨m, h⟩ | ⟨api, ses, q, cmd, _, _, _, _, _, _, _, h⟩
    · rw [h] at hnew; cases hnew
    · rw [h] at hnew; cases hnew
    · rw [h] at hnew ⊢
      cases hnew
      rfl
  · intro s i
    constructor
    · intro hname
      simp [Handler.onInteractionCreate, interactionCreateHandler, hname]
    · intro hname
      simp [Handler.onInteractionCreate, interactionCreateHandler, hname, logPrintf, perform]

theorem handler_dispatches_on_name_witness :
    (New envOk cfg0).calls.filterMap Call.handler? = [.ready, .interactionCreate bot1] ∧
    Handler.onInteractionCreate envOk (.interactionCreate bot1) session0 imagineCat =
      bot1.processImagineCommand envOk session0 imagineCat ∧
    Handler.onInteractionCreate envOk (.interactionCreate bot1) session0 helpCommand =
      ⟨[.logPrintf "Unknown command 'help'"], .ok ()⟩ :=
  ⟨(handler_dispatches_on_name envOk cfg0 bot1 rfl).1,
    ((handler_dispatches_on_name envOk cfg0 bot1 rfl).2 session0 imagineCat).1 (by decide),
    ((handler_dispatches_on_name envOk cfg0 bot1 rfl).2 session0 helpCommand).2 (by decide)⟩

/-- C8: the command is not registered in the configured guild.  `New` accepts
the configuration with guild ID "guild" and every collaborator succeeds, yet the
guild ID passed to `ApplicationCommandCreate`, and by `Start` to
`ApplicationCommandDelete`, is the empty string: `guildID` of the bot is never
set. -/
theorem command_registered_with_empty_guild :
    cfg0.GuildID = "guild" ∧
    (New envOk cfg0).outcome = .ok (some bot1, none) ∧
    (New envOk cfg0).calls.filterMap Call.createGuildID? = [""] ∧
    bot1.guildID = "" ∧
    (bot1.Start envOk).calls =
      [.startPolling queue0, .logPrintf "Removing command 'imagine'...",
       .applicationCommandDelete "app" "" "cmd1", .sessionClose session0] := by
  refine ⟨rfl, rfl, rfl, rfl, rfl⟩

/-- C9: when `ApplicationCommandCreate` fails with no command value,
`addImagineCommand` does not return the error: it dereferences the nil command
for the log line and faults, and so does `New`, which returns nothing. -/
theorem create_failure_faults :
    envCreateFails.applicationCommandCreate "app" "" imagineCommand =
      (none, some ⟨"HTTP 403"⟩) ∧
    bot0.addImagineCommand envCreateFails =
      ⟨[.logPrintf "Adding command 'imagine'...",
        .applicationCommandCreate "app" "" imagineCommand],
       .error "runtime error: invalid memory address or nil pointer dereference"⟩ ∧
    New envCreateFails cfg0 =
      ⟨[.discordgoNew "Bot tok", .addHandler .ready, .sessionOpen session0,
        .imagineQueueNew ⟨session0, ⟨"http://sd"⟩⟩,
        .logPrintf "Adding command 'imagine'...",
        .applicationCommandCreate "app" "" imagineCommand],
       .error "runtime error: invalid memory address or nil pointer dereference"⟩ := by
  refine ⟨rfl, rfl, rfl⟩

/-- C10: `New` checks its configuration first and in a fixed order: an empty
`BotToken` gives (nil, "missing bot token"); otherwise an empty `GuildID` gives
(nil, "missing guild ID"); otherwise a nil `StableDiffusionAPI` gives
(nil, "missing stable diffusion API"); in these cases no call at all is made to
a collaborator.  `New` never returns a bot together with an error. -/
theorem New_validates_config (env : Collaborators) (cfg : Config) :
    (cfg.BotToken = "" →
      New env cfg = ⟨[], .ok (none, some ⟨"missing bot token"⟩)⟩) ∧
    (cfg.BotToken ≠ "" → cfg.GuildID = "" →
      New env cfg = ⟨[], .ok (none, some ⟨"missing guild ID"⟩)⟩) ∧
    (cfg.BotToken ≠ "" → cfg.GuildID ≠ "" → cfg.StableDiffusionAPI = none →
      New env cfg = ⟨[], .ok (none, some ⟨"missing stable diffusion API"⟩)⟩) ∧
    (∀ (b : botImpl) (e : Err), (New env cfg).outcome ≠ .ok (some b, some e)) := by
  refine ⟨?_, ?_, ?_, ?_⟩
  · intro h1
    simp [New, h1, pure, bind, Run.bind]
  · intro h1 h2
    simp [New, h1, h2, pure, bind, Run.bind]
  · intro h1 h2 h3
    simp [New, h1, h2, h3, pure, bind, Run.bind]
  · intro b e hbe
    rcases New_outcome env cfg with ⟨e2, h⟩ | ⟨m, h⟩ | ⟨api, ses, q, cmd, _, _, _, _, _, _, _, h⟩
    · rw [h] at hbe; cases hbe
    · rw [h] at hbe; cases hbe
    · rw [h] at hbe; cases hbe

theorem New_validates_config_witness :
    New envOk ⟨"", "", none⟩ = ⟨[], .ok (none, some ⟨"missing bot token"⟩)⟩ ∧
    New envOk ⟨"tok", "", none⟩ = ⟨[], .ok (none, some ⟨"missing guild ID"⟩)⟩ ∧
    New envOk ⟨"tok", "guild", none⟩ =
      ⟨[], .ok (none, some ⟨"missing stable diffusion API"⟩)⟩ :=
  ⟨(New_validates_config envOk ⟨"", "", none⟩).1 rfl,
    (New_validates_config envOk ⟨"tok", "", none⟩).2.1 (by decide) rfl,
    (New_validates_config envOk ⟨"tok", "guild", none⟩).2.2.1 (by decide) (by decide) rfl⟩

end DiscordBot
